import Mathlib

/-!
Shallow embedding of `src/main.rs` of the aem-eye tool (a concurrent HTTP
probe that tests each target's response body against a set of regular
expressions and prints matched targets).

Modelling conventions:
  * The `regex` crate's behaviour, for the subset of syntax the program uses
    (literal characters, `\c` escapes, `.`, and postfix `*`), is embedded as a
    small regular-expression AST with a Brzozowski-derivative matcher.
    `captures_iter` yields at least one item exactly when the pattern matches
    somewhere in the body, and every capture has `len() >= 1` (group 0), so
    the code's `cap.len() > 0` test inside the first capture iteration is
    equivalent to "the pattern matches somewhere in the body".
  * Rust's `HashMap<String, String>` is embedded as an association list where
    `insert` replaces the value of an existing key, as `HashMap::insert` does.
    HashMap iteration order is arbitrary; theorems that depend on the order of
    patterns quantify over the list.
  * HTTP I/O is an oracle `fetch : String → Nat → Option String`: the result
    of the i-th GET a worker issues against a target within one job; `none`
    stands for any of the three failure points the code handles identically
    with `continue` (request build error, execution error / timeout, body not
    readable as text), `some body` for a successful fetch of `body`.
  * The spmc job channel is embedded from one worker's point of view as the
    list of jobs that worker receives; `recv` returning `Err` (queue closed
    and drained) is the end of the list.  The mpsc result channel's `send`
    is an oracle `sendOk : Nat → Bool` per pattern-iteration (the code's
    `if let Err(_) = tx.send(..)` branch); in the program's actual wiring the
    receiver `_result_rx` is held alive in `main` for the whole run, so sends
    do not error there (`sendOk = fun _ => true`).
  * Rust panics (`unwrap` on `None` / on a parse error / on an invalid regex)
    are explicit: `Option.none` results, or the `WorkerExit.panicked` exit.
-/

namespace AemEye

/-! ### Regular expressions (the subset of `regex` crate syntax the tool uses) -/

/-- Regular-expression AST: empty language, empty string, literal character,
`.` wildcard, concatenation, alternation, Kleene star. -/
inductive RE where
  | emp
  | eps
  | lit (c : Char)
  | dot
  | seq (a b : RE)
  | alt (a b : RE)
  | star (r : RE)
deriving Repr, DecidableEq

/-- Smart concatenation used by the derivative (prunes `emp` and `eps`). -/
def mkSeq : RE → RE → RE
  | .emp, _ => .emp
  | .eps, b => b
  | _, .emp => .emp
  | a, .eps => a
  | a, b => .seq a b

/-- Smart alternation used by the derivative (prunes `emp`). -/
def mkAlt : RE → RE → RE
  | .emp, b => b
  | a, .emp => a
  | a, b => .alt a b

/-- Does the regular expression accept the empty string? -/
def nullable : RE → Bool
  | .emp => false
  | .eps => true
  | .lit _ => false
  | .dot => false
  | .seq a b => nullable a && nullable b
  | .alt a b => nullable a || nullable b
  | .star _ => true

/-- Brzozowski derivative of a regular expression by one character. -/
def deriv (c : Char) : RE → RE
  | .emp => .emp
  | .eps => .emp
  | .lit d => if d = c then .eps else .emp
  | .dot => .eps
  | .seq a b =>
      if nullable a then mkAlt (mkSeq (deriv c a) b) (deriv c b)
      else mkSeq (deriv c a) b
  | .alt a b => mkAlt (deriv c a) (deriv c b)
  | .star r => mkSeq (deriv c r) (.star r)

/-- Whole-string match by iterated derivatives. -/
def rmatch (r : RE) (s : List Char) : Bool :=
  nullable (s.foldl (fun r c => deriv c r) r)

/-- Parse the regex source left to right into a list of atoms, with `\c` as an
escaped literal, `.` as the wildcard, and postfix `*` starring the previous
atom; `none` embeds a pattern the `regex` crate rejects (`Regex::new` `Err`),
such as a trailing backslash or a leading `*`. -/
def parseAtoms : List Char → List RE → Option (List RE)
  | [], acc => some acc.reverse
  | '\\' :: c :: rest, acc => parseAtoms rest (.lit c :: acc)
  | ['\\'], _ => none
  | '*' :: rest, a :: acc => parseAtoms rest (.star a :: acc)
  | '*' :: _, [] => none
  | '.' :: rest, acc => parseAtoms rest (.dot :: acc)
  | c :: rest, acc => parseAtoms rest (.lit c :: acc)

/-- `Regex::new`: compile a pattern source string, `none` on an invalid
pattern (in the code, `Regex::new(&pattern.1).unwrap()` panics then). -/
def compileRegex (s : String) : Option RE :=
  (parseAtoms s.toList []).map (fun atoms => atoms.foldr RE.seq RE.eps)

/-- Does the compiled pattern match anywhere in the body?  This is
`re.captures_iter(&body)` yielding at least one capture (each capture has
`len() > 0`, so the code prints the host exactly when this holds). -/
def searchRE (r : RE) (body : String) : Bool :=
  rmatch (RE.seq (RE.star RE.dot) (RE.seq r (RE.star RE.dot))) body.toList

/-! ### Data model: `Job`, `JobResult`, the pattern map built in `main` -/

/-- Association-list embedding of `HashMap<String, String>`. -/
abbrev PatternMap := List (String × String)

/-- `HashMap::insert`: replaces the value when the key is already present,
appends a new binding otherwise. -/
def hashInsert (m : PatternMap) (k v : String) : PatternMap :=
  if m.any (fun p => p.1 = k) then
    m.map (fun p => if p.1 = k then (k, v) else p)
  else m ++ [(k, v)]

/-- The first pattern source `main` inserts: `r#"href="\/content\/dam.*"#`. -/
def damPattern : String := "href=\"\\/content\\/dam.*"

/-- The second pattern source `main` inserts: `r#"href="\/etc.clientlibs.*"#`. -/
def clientlibsPattern : String := "href=\"\\/etc.clientlibs.*"

/-- The pattern map `main` builds (lines 136-144): two `insert` calls that
both use the key `"http_resp"`. -/
def mainPatterns : PatternMap :=
  hashInsert (hashInsert [] "http_resp" damPattern) "http_resp" clientlibsPattern

/-- `struct Job`: one unit of work as sent over the spmc channel. -/
structure Job where
  ip_str : Option String
  patterns : Option PatternMap
deriving Repr, DecidableEq

/-- `struct JobResult`: the value a worker sends over the result channel. -/
structure JobResult where
  data : String
deriving Repr, DecidableEq

/-! ### Numeric-flag parsing in `main` -/

/-- Rust unsigned-integer `FromStr`: an optional leading `+`, then one or more
ASCII digits, and the value must be below the type's bound; anything else is a
parse error. -/
def parseRustUInt (bound : Nat) (s : String) : Option Nat :=
  let cs := s.toList
  let ds := match cs with
    | '+' :: rest => rest
    | l => l
  if ds.isEmpty then none
  else if ds.all (fun c => c.isDigit) then
    let n := ds.foldl (fun acc c => acc * 10 + (c.toNat - 48)) 0
    if n < bound then some n else none
  else none

/-- `str::parse::<u32>`. -/
def parseU32 : String → Option Nat := parseRustUInt (2 ^ 32)

/-- `str::parse::<usize>` (64-bit target). -/
def parseUsize : String → Option Nat := parseRustUInt (2 ^ 64)

/-- `main` lines 75-81: the rate flag; on parse failure print a warning and
use 1000.  Returns the value and whether the warning was printed. -/
def rateFromArg (s : String) : Nat × Bool :=
  match parseU32 s with
  | some n => (n, false)
  | none => (1000, true)

/-- `main` lines 83-89: the concurrency flag; warning and 1000 on failure. -/
def concurrencyFromArg (s : String) : Nat × Bool :=
  match parseU32 s with
  | some n => (n, false)
  | none => (1000, true)

/-- `main` lines 96-102: the workers flag; warning and 10 on failure. -/
def workersFromArg (s : String) : Nat × Bool :=
  match parseUsize s with
  | some n => (n, false)
  | none => (10, true)

/-- `main` lines 91-94: the timeout flag,
`Some(timeout) => timeout.parse::<usize>().unwrap(), None => 10`.
`none` in the result embeds the panic of that `unwrap` on a parse error. -/
def timeoutFromArg (arg : Option String) : Option Nat :=
  match arg with
  | some t => parseUsize t
  | none => some 10

/-! ### `send_url`: the dispatcher -/

/-- The dispatch loop of `send_url`: for each host build a `Job` with both
fields populated and attempt `tx.send`; on `Err` the code does `continue`
(skipping only the rate-limiter wait), so iteration always proceeds to the
next host.  `sendOk i` tells whether the i-th send succeeds (spmc `send`
fails once every receiver has been dropped).  Returns the list of hosts for
which a send was attempted and the list of jobs actually enqueued. -/
def send_url_loop (patterns : PatternMap) (sendOk : Nat → Bool) :
    List String → Nat → List String × List Job
  | [], _ => ([], [])
  | host :: rest, i =>
    let msg : Job := { ip_str := some host, patterns := some patterns }
    let next := send_url_loop patterns sendOk rest (i + 1)
    if sendOk i then (host :: next.1, msg :: next.2)
    else (host :: next.1, next.2)

/-- `send_url` (lines 167-188): first
`RateLimiter::direct(Quota::per_second(NonZeroU32::new(rate).unwrap()))`,
which panics when `rate = 0` (embedded as `none`); then the dispatch loop.
Rate-limiter timing itself is not modelled, only the panic on construction. -/
def send_url (rate : Nat) (hosts : List String) (patterns : PatternMap)
    (sendOk : Nat → Bool) : Option (List String × List Job) :=
  if rate = 0 then none
  else some (send_url_loop patterns sendOk hosts 0)

/-! ### `run_detector`: the worker -/

/-- Which `unwrap` a worker panic came from. -/
inductive PanicKind where
  | unwrapNone
  | badRegex
deriving Repr, DecidableEq

/-- How `run_detector` left its `while let Ok(job) = rx.recv()` loop:
`returned r` is the mid-loop `return result_job`; `closed r` is the final
`return JobResult { data: "".to_string() }` after `recv` errs (queue closed
and drained); `panicked` is an `unwrap` panic. -/
inductive WorkerExit where
  | returned (r : JobResult)
  | closed (r : JobResult)
  | panicked (k : PanicKind)
deriving Repr, DecidableEq

/-- Outcome of the `for pattern in job_patterns` loop for one job:
`exhausted` when the loop ran off the end of the pattern list (every
iteration hit a `continue`), `returned` for the `return result_job`,
`panicked` for the `Regex::new(..).unwrap()` panic.  Carries the lines
printed to stdout and the `JobResult`s delivered on the result channel. -/
inductive JobOutcome where
  | exhausted (prints : List String) (sent : List JobResult)
  | returned (prints : List String) (sent : List JobResult) (res : JobResult)
  | panicked (prints : List String) (sent : List JobResult) (k : PanicKind)
deriving Repr, DecidableEq

/-- The body of the per-job pattern loop (lines 218-256).  For the i-th
pattern: a failed fetch (`fetch i = none`) is any of the three `continue`
branches; on a fetched body the pattern source (`pattern.1` in Rust, the
map's value) is compiled — panic if invalid — the host is printed when the
pattern matches the body (`break` after the first capture, hence at most one
print per iteration); then a `JobResult` is unconditionally sent: on send
success `return result_job`, on send `Err` `continue` to the next pattern. -/
def processPats (fetch : Nat → Option String) (sendOk : Nat → Bool)
    (host : String) : List (String × String) → Nat → JobOutcome
  | [], _ => .exhausted [] []
  | (_, patSrc) :: rest, i =>
    match fetch i with
    | none => processPats fetch sendOk host rest (i + 1)
    | some body =>
      match compileRegex patSrc with
      | none => .panicked [] [] .badRegex
      | some re =>
        let prints := if searchRE re body then [host] else []
        let resultMsg : JobResult := { data := host }
        if sendOk i then .returned prints [resultMsg] resultMsg
        else
          match processPats fetch sendOk host rest (i + 1) with
          | .exhausted p s => .exhausted (prints ++ p) s
          | .returned p s r => .returned (prints ++ p) s r
          | .panicked p s k => .panicked (prints ++ p) s k

/-- Everything observable about one worker's `run_detector` call: stdout
lines, delivered results, how it exited, and the jobs of its queue it never
received because it exited first. -/
structure WorkerRun where
  prints : List String
  sent : List JobResult
  exit : WorkerExit
  remaining : List Job
deriving Repr, DecidableEq

/-- `run_detector` (lines 191-261) over the list of jobs this worker's
receive handle would deliver: unwrap `job.ip_str` and `job.patterns`
(panicking on `None`), run the pattern loop, and either fall through to the
next `recv` (pattern list exhausted) or stop the whole worker (the mid-loop
`return result_job`, or a panic). -/
def run_detector (fetch : String → Nat → Option String) (sendOk : Nat → Bool) :
    List Job → WorkerRun
  | [] => { prints := [], sent := [], exit := .closed { data := "" }, remaining := [] }
  | j :: rest =>
    match j.ip_str with
    | none => { prints := [], sent := [], exit := .panicked .unwrapNone, remaining := rest }
    | some host =>
      match j.patterns with
      | none => { prints := [], sent := [], exit := .panicked .unwrapNone, remaining := rest }
      | some pats =>
        match processPats (fetch host) sendOk host pats 0 with
        | .exhausted p s =>
          let w := run_detector fetch sendOk rest
          { prints := p ++ w.prints, sent := s ++ w.sent,
            exit := w.exit, remaining := w.remaining }
        | .returned p s r =>
          { prints := p, sent := s, exit := .returned r, remaining := rest }
        | .panicked p s k =>
          { prints := p, sent := s, exit := .panicked k, remaining := rest }

/-- Stdout of a whole run in which the enqueued jobs are distributed over the
worker pool according to a schedule `assign` (one job list per worker); any
interleaving of the per-worker outputs has the same multiset of lines, so the
concatenation represents the run's output up to reordering. -/
def totalPrints (fetch : String → Nat → Option String) (sendOk : Nat → Bool)
    (assign : List (List Job)) : List String :=
  (assign.map (fun ws => (run_detector fetch sendOk ws).prints)).flatten

/-! ### Helper lemmas -/

/-- When every request against the target fails, the pattern loop exhausts
the pattern list with no print, no sent result, and no early return. -/
theorem processPats_allFail (fetch : Nat → Option String) (sOk : Nat → Bool)
    (host : String) (pats : List (String × String))
    (hfail : ∀ i, fetch i = none) :
    ∀ i, processPats fetch sOk host pats i = .exhausted [] [] := by
  induction pats with
  | nil => intro i; rfl
  | cons hd tl ih =>
    intro i
    obtain ⟨name, patSrc⟩ := hd
    simp [processPats, hfail i, ih (i + 1)]

/-- The dispatch loop attempts a send for every host in order, whatever the
send results are. -/
theorem send_url_loop_attempts (patterns : PatternMap) (sOk : Nat → Bool) :
    ∀ (hosts : List String) (i : Nat),
      (send_url_loop patterns sOk hosts i).1 = hosts := by
  intro hosts
  induction hosts with
  | nil => intro i; rfl
  | cons hd tl ih =>
    intro i
    simp only [send_url_loop]
    split <;> simp [ih (i + 1)]

/-- The dispatch loop enqueues at most one job per input host. -/
theorem send_url_loop_enq_le (patterns : PatternMap) (sOk : Nat → Bool) :
    ∀ (hosts : List String) (i : Nat),
      (send_url_loop patterns sOk hosts i).2.length ≤ hosts.length := by
  intro hosts
  induction hosts with
  | nil => intro i; simp [send_url_loop]
  | cons hd tl ih =>
    intro i
    simp only [send_url_loop, List.length_cons]
    split
    · simpa using ih (i + 1)
    · exact Nat.le_succ_of_le (ih (i + 1))

/-- Every job the dispatch loop enqueues has both fields populated with
`Some`, carrying one of the hosts and the shared pattern map. -/
theorem send_url_loop_jobs (patterns : PatternMap) (sOk : Nat → Bool) :
    ∀ (hosts : List String) (i : Nat) (j : Job),
      j ∈ (send_url_loop patterns sOk hosts i).2 →
      ∃ h, j = { ip_str := some h, patterns := some patterns } := by
  intro hosts
  induction hosts with
  | nil => intro i j hj; simp [send_url_loop] at hj
  | cons hd tl ih =>
    intro i j hj
    simp only [send_url_loop] at hj
    by_cases hs : sOk i
    · simp [hs] at hj
      rcases hj with hj | hj
      · exact ⟨hd, hj⟩
      · exact ih (i + 1) j hj
    · simp [hs] at hj
      exact ih (i + 1) j hj

/-- The pattern loop's only panic is the regex `unwrap`: it never produces
an `unwrapNone` panic. -/
theorem processPats_no_unwrapNone (fetch : Nat → Option String) (sOk : Nat → Bool)
    (host : String) (pats : List (String × String)) :
    ∀ (i : Nat) (p : List String) (s : List JobResult),
      processPats fetch sOk host pats i ≠ .panicked p s .unwrapNone := by
  induction pats with
  | nil => intro i p s; simp [processPats]
  | cons hd tl ih =>
    intro i p s
    obtain ⟨name, patSrc⟩ := hd
    simp only [processPats]
    cases hf : fetch i with
    | none => exact ih (i + 1) p s
    | some body =>
      cases hc : compileRegex patSrc with
      | none => simp
      | some re =>
        by_cases hs : sOk i
        · simp [hs]
        · simp only [hs, if_neg, Bool.false_eq_true, ite_false]
          cases hrec : processPats fetch sOk host tl (i + 1) with
          | exhausted p0 s0 => simp
          | returned p0 s0 r0 => simp
          | panicked p0 s0 k0 =>
            simp only [ne_eq, JobOutcome.panicked.injEq, not_and]
            intro _ _ hk
            exact ih (i + 1) p0 s0 (by rw [hrec, hk])

/-- With the result-channel receiver alive (sends succeed, as in `main`'s
wiring), the pattern loop prints at most one line, and only in the
early-return case. -/
theorem processPats_true_prints (fetch : Nat → Option String) (host : String)
    (pats : List (String × String)) :
    ∀ i, (∃ s, processPats fetch (fun _ => true) host pats i = .exhausted [] s) ∨
      (∃ p s r, processPats fetch (fun _ => true) host pats i = .returned p s r ∧
        p.length ≤ 1) ∨
      (∃ s k, processPats fetch (fun _ => true) host pats i = .panicked [] s k) := by
  induction pats with
  | nil => intro i; exact Or.inl ⟨[], rfl⟩
  | cons hd tl ih =>
    intro i
    obtain ⟨name, patSrc⟩ := hd
    simp only [processPats]
    cases hf : fetch i with
    | none => exact ih (i + 1)
    | some body =>
      cases hc : compileRegex patSrc with
      | none => exact Or.inr (Or.inr ⟨[], .badRegex, rfl⟩)
      | some re =>
        exact Or.inr (Or.inl ⟨_, _, _, rfl, by split <;> simp⟩)

/-- With sends succeeding, a worker prints at most one line per job it
receives (in fact at most one line in its whole life, since it returns
right after any successful fetch). -/
theorem run_detector_true_prints_le (fetch : String → Nat → Option String) :
    ∀ jobs : List Job,
      (run_detector fetch (fun _ => true) jobs).prints.length ≤ jobs.length := by
  intro jobs
  induction jobs with
  | nil => simp [run_detector]
  | cons j rest ih =>
    obtain ⟨ip, pt⟩ := j
    cases ip with
    | none => exact Nat.zero_le _
    | some host =>
      cases pt with
      | none => exact Nat.zero_le _
      | some pats =>
        simp only [run_detector, List.length_cons]
        rcases processPats_true_prints (fetch host) host pats 0 with
          ⟨s, hpp⟩ | ⟨p, s, r, hpp, hlen⟩ | ⟨s, k, hpp⟩ <;> rw [hpp]
        · exact Nat.le_succ_of_le ih
        · exact Nat.le_trans hlen (by omega)
        · exact Nat.zero_le _

/-- Summing the per-worker bound over a whole schedule: with sends
succeeding, the run prints at most one line per job distributed. -/
theorem totalPrints_le_jobs (fetch : String → Nat → Option String)
    (assign : List (List Job)) :
    (totalPrints fetch (fun _ => true) assign).length ≤ assign.flatten.length := by
  induction assign with
  | nil => simp [totalPrints]
  | cons ws rest ih =>
    simp only [totalPrints, List.map_cons, List.flatten_cons, List.length_append] at *
    exact Nat.add_le_add (run_detector_true_prints_le fetch ws) ih

/-- A worker fed only jobs with both fields populated never hits the
`job.ip_str.unwrap()` / `job.patterns.unwrap()` panic. -/
theorem run_detector_no_unwrapNone (fetch : String → Nat → Option String)
    (sOk : Nat → Bool) (jobs : List Job)
    (hwf : ∀ j ∈ jobs, j.ip_str.isSome ∧ j.patterns.isSome) :
    (run_detector fetch sOk jobs).exit ≠ .panicked .unwrapNone := by
  induction jobs with
  | nil => simp [run_detector]
  | cons j rest ih =>
    have hwfj := hwf j (by simp)
    have hwfrest : ∀ j ∈ rest, j.ip_str.isSome ∧ j.patterns.isSome :=
      fun x hx => hwf x (by simp [hx])
    obtain ⟨ip, pt⟩ := j
    cases ip with
    | none => simp at hwfj
    | some host =>
      cases pt with
      | none => simp at hwfj
      | some pats =>
        simp only [run_detector]
        cases hpp : processPats (fetch host) sOk host pats 0 with
        | exhausted p s => exact ih hwfrest
        | returned p s r => simp
        | panicked p s k =>
          simp only [ne_eq, WorkerExit.panicked.injEq]
          intro hk
          exact processPats_no_unwrapNone (fetch host) sOk host pats 0 p s
            (by rw [hpp, hk])

/-! ### Claims -/

/-- C1: the claim says the pattern map holds the dam and clientlibs regexes
under two distinct names and that a body containing `href="/content/dam/foo"`
yields exactly one output line.  In the code both `insert` calls use the same
key `"http_resp"`, so the map ends up with the single clientlibs entry, the
dam regex (which does match that body) is discarded, and the run prints
nothing for such a target. -/
theorem C1_dam_pattern_overwritten :
    mainPatterns = [("http_resp", clientlibsPattern)] ∧
    mainPatterns.map Prod.fst = ["http_resp"] ∧
    (compileRegex damPattern).map
      (fun re => searchRE re "<a href=\"/content/dam/foo\">x</a>") = some true ∧
    (run_detector (fun _ _ => some "<a href=\"/content/dam/foo\">x</a>")
      (fun _ => true)
      [{ ip_str := some "http://example.test", patterns := some mainPatterns }]).prints
      = [] := by
  refine ⟨by decide, by decide, by decide, by decide⟩

/-- C2: the claim says a `JobResult` is emitted iff some pattern matches a
fetched body.  In the code the send of `result_msg` and the
`return result_job` sit after the capture loop unconditionally, so on the
first successful fetch a `JobResult` is emitted even though no pattern
matches the body (`prints = []` witnesses that nothing matched). -/
theorem C2_result_sent_without_match :
    (compileRegex clientlibsPattern).map (fun re => searchRE re "hello")
      = some false ∧
    (run_detector (fun _ _ => some "hello") (fun _ => true)
      [{ ip_str := some "http://t",
         patterns := some [("http_resp", clientlibsPattern)] }]).sent
      = [{ data := "http://t" }] ∧
    (run_detector (fun _ _ => some "hello") (fun _ => true)
      [{ ip_str := some "http://t",
         patterns := some [("http_resp", clientlibsPattern)] }]).prints
      = [] := by
  refine ⟨by decide, by decide, by decide⟩

/-- C3: the claim says a worker loops back for the next job and terminates
only once the queue is closed and empty.  In the code `return result_job`
ends `run_detector` after the first job whose fetch succeeds, so the worker
terminates while a second job is still sitting in its queue. -/
theorem C3_worker_returns_with_queue_nonempty :
    (run_detector (fun _ _ => some "hello") (fun _ => true)
      [{ ip_str := some "http://t1", patterns := some mainPatterns },
       { ip_str := some "http://t2", patterns := some mainPatterns }]).exit
      = WorkerExit.returned { data := "http://t1" } ∧
    (run_detector (fun _ _ => some "hello") (fun _ => true)
      [{ ip_str := some "http://t1", patterns := some mainPatterns },
       { ip_str := some "http://t2", patterns := some mainPatterns }]).remaining
      = [{ ip_str := some "http://t2", patterns := some mainPatterns }] := by
  refine ⟨by decide, by decide⟩

/-- C4 counterexample: the claim bounds the run's stdout lines by the number
of unique well-formed targets "even when a target appears more than once in
the input".  Nothing deduplicates the input: a host listed twice is enqueued
twice, and with two workers each duplicate is printed, giving 2 lines for 1
unique target. -/
theorem C4_duplicate_target_printed_twice :
    send_url 1000 ["http://a", "http://a"] mainPatterns (fun _ => true)
      = some (["http://a", "http://a"],
        [{ ip_str := some "http://a", patterns := some mainPatterns },
         { ip_str := some "http://a", patterns := some mainPatterns }]) ∧
    totalPrints (fun _ _ => some "href=\"/etc.clientlibs/x\"") (fun _ => true)
      [[{ ip_str := some "http://a", patterns := some mainPatterns }],
       [{ ip_str := some "http://a", patterns := some mainPatterns }]]
      = ["http://a", "http://a"] ∧
    (["http://a", "http://a"] : List String).dedup.length = 1 ∧
    ¬ (totalPrints (fun _ _ => some "href=\"/etc.clientlibs/x\"") (fun _ => true)
        [[{ ip_str := some "http://a", patterns := some mainPatterns }],
         [{ ip_str := some "http://a", patterns := some mainPatterns }]]).length
      ≤ (["http://a", "http://a"] : List String).dedup.length := by
  refine ⟨by decide, by decide, by decide, by decide⟩

/-- C4 amended: with the result-channel receiver alive (sends succeed, as in
`main`'s wiring), the number of stdout lines of a whole run is at most the
number of targets supplied, counted with multiplicity — one line per input
line, not per unique target. -/
theorem C4_amended_prints_le_hosts (rate : Nat) (hosts : List String)
    (pats : PatternMap) (sOk : Nat → Bool)
    (fetch : String → Nat → Option String)
    (att : List String) (jobs : List Job) (assign : List (List Job))
    (hsend : send_url rate hosts pats sOk = some (att, jobs))
    (hsched : assign.flatten.Perm jobs) :
    (totalPrints fetch (fun _ => true) assign).length ≤ hosts.length := by
  have hx : send_url_loop pats sOk hosts 0 = (att, jobs) := by
    unfold send_url at hsend
    split at hsend
    · simp at hsend
    · exact Option.some.inj hsend
  have hjobs : jobs.length ≤ hosts.length := by
    have := send_url_loop_enq_le pats sOk hosts 0
    rw [hx] at this
    exact this
  have h1 := totalPrints_le_jobs fetch assign
  have h2 : assign.flatten.length = jobs.length := hsched.length_eq
  omega

/-- Witness for C4 amended at a concrete run. -/
theorem C4_amended_witness :
    (totalPrints (fun _ _ => some "href=\"/etc.clientlibs/x\"") (fun _ => true)
      [[{ ip_str := some "http://a", patterns := some mainPatterns }]]).length
      ≤ (["http://a"] : List String).length :=
  C4_amended_prints_le_hosts 1000 ["http://a"] mainPatterns (fun _ => true)
    (fun _ _ => some "href=\"/etc.clientlibs/x\"") ["http://a"]
    [{ ip_str := some "http://a", patterns := some mainPatterns }]
    [[{ ip_str := some "http://a", patterns := some mainPatterns }]]
    (by decide) (by decide)

/-- C5: the claim says any rate value that is non-numeric or ≤ 0 — "0"
included — falls back to 1000 with a warning and is never fatal.  "0" parses
fine as a `u32`, so no fallback or warning happens, and `send_url` then
panics on `NonZeroU32::new(0).unwrap()` (the `none` below); non-numeric and
negative inputs do fall back with a warning. -/
theorem C5_rate_zero_panics :
    rateFromArg "0" = (0, false) ∧
    rateFromArg "abc" = (1000, true) ∧
    rateFromArg "-5" = (1000, true) ∧
    send_url 0 ["http://a"] mainPatterns (fun _ => true) = none := by
  refine ⟨by decide, by decide, by decide, by decide⟩

/-- C6: the claim says all four numeric flags substitute their documented
default on a parse failure and are never fatal.  Rate, concurrency and
workers do; the timeout flag instead calls `.parse::<usize>().unwrap()`,
which panics on an unparseable value (the `none` below). -/
theorem C6_timeout_parse_panics :
    timeoutFromArg (some "abc") = none ∧
    rateFromArg "abc" = (1000, true) ∧
    concurrencyFromArg "abc" = (1000, true) ∧
    workersFromArg "abc" = (10, true) := by
  refine ⟨by decide, by decide, by decide, by decide⟩

/-- C7: the claim says an invalid regex is fatal at startup, before any
worker runs.  In the code nothing validates patterns at startup: a job
carrying an invalid pattern (here a trailing backslash, which `Regex::new`
rejects) is dispatched normally, and the `Regex::new(..).unwrap()` panic
happens inside the worker's per-request loop — and only after a successful
fetch; when every fetch fails the bad pattern is never even noticed. -/
theorem C7_regex_panic_deferred_to_worker :
    compileRegex "\\" = none ∧
    send_url 1000 ["http://t"] [("p", "\\")] (fun _ => true)
      = some (["http://t"],
        [{ ip_str := some "http://t", patterns := some [("p", "\\")] }]) ∧
    (run_detector (fun _ _ => some "body") (fun _ => true)
      [{ ip_str := some "http://t", patterns := some [("p", "\\")] }]).exit
      = WorkerExit.panicked PanicKind.badRegex ∧
    (run_detector (fun _ _ => none) (fun _ => true)
      [{ ip_str := some "http://t", patterns := some [("p", "\\")] }]).exit
      = WorkerExit.closed { data := "" } := by
  refine ⟨by decide, by decide, by decide, by decide⟩

/-- C8 counterexample: the claim says the dispatcher stops dispatching once a
send fails because the queue is closed.  With every send failing, the code's
`continue` still attempts a send for the second host: the attempt list is
both hosts, not just the first. -/
theorem C8_dispatcher_keeps_iterating :
    send_url 1000 ["http://a", "http://b"] mainPatterns (fun _ => false)
      = some (["http://a", "http://b"], []) ∧
    ¬ (send_url 1000 ["http://a", "http://b"] mainPatterns
        (fun _ => false)).map Prod.fst = some ["http://a"] := by
  refine ⟨by decide, by decide⟩

/-- C8 amended: on a failed enqueue the dispatcher skips that target and
keeps iterating — it attempts a send for every remaining target, and a
closed queue is never treated as an error (the loop completes normally). -/
theorem C8_amended_attempts_every_host (rate : Nat) (hosts : List String)
    (pats : PatternMap) (sOk : Nat → Bool) (h : rate ≠ 0) :
    (send_url rate hosts pats sOk).map Prod.fst = some hosts := by
  simp [send_url, h, send_url_loop_attempts]

/-- Witness for C8 amended at a concrete run with every send failing. -/
theorem C8_amended_witness :
    (send_url 1000 ["http://a", "http://b"] mainPatterns
      (fun _ => false)).map Prod.fst = some ["http://a", "http://b"] :=
  C8_amended_attempts_every_host 1000 ["http://a", "http://b"] mainPatterns
    (fun _ => false) (by decide)

/-- C9: a job whose every request fails (any of: request build error,
execution error / timeout, unreadable body — all are `fetch _ = none`)
contributes nothing: no stdout line, no result, no panic, and the worker's
run is exactly the run on the rest of its queue. -/
theorem C9_failed_job_skipped (fetch : String → Nat → Option String)
    (sOk : Nat → Bool) (host : String) (pats : PatternMap) (rest : List Job)
    (hfail : ∀ i, fetch host i = none) :
    run_detector fetch sOk
        ({ ip_str := some host, patterns := some pats } :: rest)
      = run_detector fetch sOk rest := by
  simp [run_detector, processPats_allFail (fetch host) sOk host pats hfail 0]

/-- Witness for C9 at a concrete unreachable target. -/
theorem C9_witness :
    run_detector (fun _ _ => none) (fun _ => true)
        [{ ip_str := some "http://t", patterns := some mainPatterns }]
      = run_detector (fun _ _ => none) (fun _ => true) [] :=
  C9_failed_job_skipped (fun _ _ => none) (fun _ => true) "http://t"
    mainPatterns [] (fun _ => rfl)

/-- C10: every job `send_url` enqueues has `ip_str` and `patterns` populated
with `Some`, so for any worker receiving any of those jobs the two `unwrap`s
at the top of `run_detector`'s loop cannot panic. -/
theorem C10_unwraps_cannot_panic (rate : Nat) (hosts : List String)
    (pats : PatternMap) (sOk : Nat → Bool) (att : List String)
    (jobs : List Job)
    (hsend : send_url rate hosts pats sOk = some (att, jobs))
    (fetch : String → Nat → Option String) (sOk2 : Nat → Bool)
    (recv : List Job) (hrecv : ∀ j ∈ recv, j ∈ jobs) :
    (∀ j ∈ jobs, j.ip_str.isSome ∧ j.patterns.isSome) ∧
    (run_detector fetch sOk2 recv).exit ≠ .panicked .unwrapNone := by
  have hx : send_url_loop pats sOk hosts 0 = (att, jobs) := by
    unfold send_url at hsend
    split at hsend
    · simp at hsend
    · exact Option.some.inj hsend
  have hwf : ∀ j ∈ jobs, j.ip_str.isSome ∧ j.patterns.isSome := by
    intro j hj
    have hj2 : j ∈ (send_url_loop pats sOk hosts 0).2 := by rw [hx]; exact hj
    obtain ⟨h, hh⟩ := send_url_loop_jobs pats sOk hosts 0 j hj2
    subst hh
    exact ⟨rfl, rfl⟩
  exact ⟨hwf, run_detector_no_unwrapNone fetch sOk2 recv
    (fun j hj => hwf j (hrecv j hj))⟩

/-- Witness for C10 at a concrete dispatch and worker run. -/
theorem C10_witness :
    (∀ j ∈ ([{ ip_str := some "http://a", patterns := some mainPatterns }] :
        List Job), j.ip_str.isSome ∧ j.patterns.isSome) ∧
    (run_detector (fun _ _ => none) (fun _ => true)
      [{ ip_str := some "http://a", patterns := some mainPatterns }]).exit
      ≠ .panicked .unwrapNone :=
  C10_unwraps_cannot_panic 1000 ["http://a"] mainPatterns (fun _ => true)
    ["http://a"] [{ ip_str := some "http://a", patterns := some mainPatterns }]
    (by decide) (fun _ _ => none) (fun _ => true)
    [{ ip_str := some "http://a", patterns := some mainPatterns }]
    (fun j hj => hj)

end AemEye
